import Mathlib

/-!
Verification of the SocialPulse sentiment-analysis service (`src/app.py`).

The development shallowly embeds the Python source:
ASCII text is modelled as `List Char`; Python `str.strip`, `str.split`
and the `in` substring test are modelled by executable functions with
the same semantics; `json.loads` is modelled on the fragment of JSON
used by the service (null, booleans, integers, strings, arrays,
objects); fallible Python code (dictionary subscripts raising
`KeyError`, attribute errors, the Flask request handlers) is modelled
with `Except`.
-/

/-- Text, modelled as a list of characters (Python `str`). -/
abbrev PyStr := List Char

/-- The characters Python `str.strip()` removes (ASCII fragment). -/
def pySpaceChars : List Char :=
  [' ', '\t', '\n', '\r', '\x0b', '\x0c']

/-- The whitespace test used by Python `str.strip()`. -/
def isPySpace (c : Char) : Bool :=
  pySpaceChars.contains c

/-- Python `s.strip()`: remove leading and trailing whitespace. -/
def pyStrip (s : PyStr) : PyStr :=
  ((s.dropWhile isPySpace).reverse.dropWhile isPySpace).reverse

/-- Python `sep in s`: substring containment. -/
def containsSub (sep : PyStr) : PyStr → Bool
  | [] => sep.isEmpty
  | c :: rest => sep.isPrefixOf (c :: rest) || containsSub sep rest

/-- The chunk of `s` before the first occurrence of `sep`
(all of `s` when `sep` does not occur): Python `s.split(sep)[0]`. -/
def takeBeforeFirst (sep : PyStr) : PyStr → PyStr
  | [] => []
  | c :: rest =>
    if sep.isPrefixOf (c :: rest) then [] else c :: takeBeforeFirst sep rest

/-- What remains of `s` after the end of the first occurrence of `sep`
(`[]` when `sep` does not occur). -/
def dropAfterFirst (sep : PyStr) : PyStr → PyStr
  | [] => []
  | c :: rest =>
    if sep.isPrefixOf (c :: rest) then rest.drop (sep.length - 1)
    else dropAfterFirst sep rest

/-- Prepend a character to the first chunk of a chunk list. -/
def consHead (c : Char) : List PyStr → List PyStr
  | [] => [[c]]
  | chunk :: more => (c :: chunk) :: more

/-- Fuelled worker for `splitOnL`; the fuel bounds the recursion depth and
is immaterial whenever it is at least `s.length`. -/
def splitOnGo (sep : PyStr) : Nat → PyStr → List PyStr
  | _, [] => [[]]
  | 0, s => [s]
  | fuel + 1, c :: rest =>
    if !sep.isEmpty && sep.isPrefixOf (c :: rest) then
      [] :: splitOnGo sep fuel (rest.drop (sep.length - 1))
    else
      consHead c (splitOnGo sep fuel rest)

/-- Python `s.split(sep)` for a non-empty separator: cut `s` at every
non-overlapping occurrence of `sep`, scanning left to right. -/
def splitOnL (sep s : PyStr) : List PyStr :=
  splitOnGo sep s.length s

/-- The characters of the generic code-fence delimiter. -/
def tripleTick : PyStr := "```".data

/-- The characters of the json-tagged code-fence delimiter. -/
def jsonFence : PyStr := "```json".data

/-- `src/app.py` lines 55-63: strip the upstream response text and cut a
JSON candidate out of a markdown code fence when one is present.
`response_text.split(x)[1]` is `(splitOnL x t).getD 1 []` (the index is
guarded by the `in` test), and `.split(x)[0]` is `.headD []`. -/
def extractCandidate (raw : PyStr) : PyStr :=
  if containsSub jsonFence (pyStrip raw) then
    pyStrip ((splitOnL tripleTick
      ((splitOnL jsonFence (pyStrip raw)).getD 1 [])).headD [])
  else if containsSub tripleTick (pyStrip raw) then
    pyStrip ((splitOnL tripleTick
      ((splitOnL tripleTick (pyStrip raw)).getD 1 [])).headD [])
  else pyStrip raw

/-- An upstream text consisting of the payload `J` wrapped in a
json-tagged code fence, exactly as in the spec: ```` ```json\nJ\n``` ````. -/
def wrapJson (J : PyStr) : PyStr :=
  "```json\n".data ++ J ++ "\n```".data

/-- Extraction as literally worded by the spec claim: between the first
`jsonFence` delimiter and the first subsequent `tripleTick` delimiter
(to be compared against `extractCandidate`, which is read off the code). -/
def claimedExtract (raw : PyStr) : PyStr :=
  if containsSub jsonFence (pyStrip raw) then
    pyStrip (takeBeforeFirst tripleTick (dropAfterFirst jsonFence (pyStrip raw)))
  else if containsSub tripleTick (pyStrip raw) then
    pyStrip (takeBeforeFirst tripleTick (dropAfterFirst tripleTick (pyStrip raw)))
  else pyStrip raw

/-- Extraction as the code actually behaves (the amended description of
claim C3): in the `jsonFence` branch the segment after the first
`jsonFence` is additionally capped at the next `jsonFence` occurrence
before being truncated at the first generic delimiter. -/
def amendedExtract (raw : PyStr) : PyStr :=
  if containsSub jsonFence (pyStrip raw) then
    pyStrip (takeBeforeFirst tripleTick
      (takeBeforeFirst jsonFence (dropAfterFirst jsonFence (pyStrip raw))))
  else if containsSub tripleTick (pyStrip raw) then
    pyStrip (takeBeforeFirst tripleTick (dropAfterFirst tripleTick (pyStrip raw)))
  else pyStrip raw

/-- A parsed JSON value (the fragment `json.loads` produces for this
service: numbers are modelled as integers; floats are outside the model). -/
inductive JVal where
  | null : JVal
  | boolean : Bool → JVal
  | num : Int → JVal
  | str : String → JVal
  | arr : List JVal → JVal
  | obj : List (String × JVal) → JVal

/-- The whitespace characters `json.loads` skips between tokens. -/
def jsonSpaceChars : List Char :=
  [' ', '\t', '\n', '\r']

/-- The whitespace test of `json.loads`. -/
def isJsonSpace (c : Char) : Bool :=
  jsonSpaceChars.contains c

/-- Skip JSON whitespace. -/
def skipWS (s : PyStr) : PyStr := s.dropWhile isJsonSpace

/-- Value of a hexadecimal digit, computed on the code point. -/
def hexVal (c : Char) : Option Nat :=
  let n := c.toNat
  if 48 ≤ n && n ≤ 57 then some (n - 48)
  else if 97 ≤ n && n ≤ 102 then some (n - 87)
  else if 65 ≤ n && n ≤ 70 then some (n - 55)
  else none

/-- Translation of a single-character JSON string escape. -/
def escChar : Char → Option Char
  | '"' => some '"'
  | '\\' => some '\\'
  | '/' => some '/'
  | 'b' => some (Char.ofNat 8)
  | 'f' => some (Char.ofNat 12)
  | 'n' => some (Char.ofNat 10)
  | 'r' => some (Char.ofNat 13)
  | 't' => some (Char.ofNat 9)
  | _ => none

/-- Numeric value of a digit string. -/
def natOfDigits : List Char → Nat → Nat
  | [], acc => acc
  | c :: rest, acc => natOfDigits rest (acc * 10 + (c.toNat - 48))

/-- Parse a JSON integer (grammar `-? (0 | [1-9][0-9]*)`); floats and
exponents are outside the modelled fragment. -/
def parseIntNum : PyStr → Except String (Int × PyStr)
  | '-' :: '0' :: rest => .ok (0, rest)
  | '-' :: c :: rest =>
    if c.isDigit then
      .ok (-(natOfDigits ((c :: rest).takeWhile Char.isDigit) 0 : Int),
           (c :: rest).dropWhile Char.isDigit)
    else .error "Expecting value"
  | '0' :: rest => .ok (0, rest)
  | c :: rest =>
    if c.isDigit then
      .ok ((natOfDigits ((c :: rest).takeWhile Char.isDigit) 0 : Int),
           (c :: rest).dropWhile Char.isDigit)
    else .error "Expecting value"
  | [] => .error "Expecting value"

/-- Parse the body of a JSON string, the opening quote already consumed;
returns the decoded characters and the input after the closing quote.
Surrogate-pair recombination is outside the modelled fragment. -/
def parseStrBody : Nat → PyStr → Except String (List Char × PyStr)
  | _, '"' :: rest => .ok ([], rest)
  | 0, _ => .error "Unterminated string starting at"
  | fuel + 1, '\\' :: 'u' :: h1 :: h2 :: h3 :: h4 :: rest =>
    match hexVal h1, hexVal h2, hexVal h3, hexVal h4 with
    | some a, some b, some c, some d =>
      (parseStrBody fuel rest).map
        (fun p => (Char.ofNat (((a * 16 + b) * 16 + c) * 16 + d) :: p.1, p.2))
    | _, _, _, _ => .error "Invalid \\uXXXX escape"
  | fuel + 1, '\\' :: e :: rest =>
    match escChar e with
    | some c => (parseStrBody fuel rest).map (fun p => (c :: p.1, p.2))
    | none => .error "Invalid \\escape"
  | _ + 1, ['\\'] => .error "Unterminated string starting at"
  | fuel + 1, c :: rest => (parseStrBody fuel rest).map (fun p => (c :: p.1, p.2))
  | _, [] => .error "Unterminated string starting at"

mutual

/-- Parse a single JSON value at the head of the input. -/
def parseVal : Nat → PyStr → Except String (JVal × PyStr)
  | 0, _ => .error "Expecting value"
  | fuel + 1, s =>
    match s with
    | [] => .error "Expecting value"
    | '"' :: rest =>
      (parseStrBody fuel rest).map (fun p => (JVal.str (String.mk p.1), p.2))
    | '[' :: rest =>
      match skipWS rest with
      | ']' :: r => .ok (.arr [], r)
      | r => (parseElems fuel r).map (fun p => (JVal.arr p.1, p.2))
    | '{' :: rest =>
      match skipWS rest with
      | '}' :: r => .ok (.obj [], r)
      | r => (parseMembers fuel r).map (fun p => (JVal.obj p.1, p.2))
    | c :: rest =>
      if "null".data.isPrefixOf (c :: rest) then .ok (.null, rest.drop 3)
      else if "true".data.isPrefixOf (c :: rest) then .ok (.boolean true, rest.drop 3)
      else if "false".data.isPrefixOf (c :: rest) then .ok (.boolean false, rest.drop 4)
      else (parseIntNum (c :: rest)).map (fun p => (JVal.num p.1, p.2))

/-- Parse the elements of a JSON array after `[`, first element due. -/
def parseElems : Nat → PyStr → Except String (List JVal × PyStr)
  | 0, _ => .error "Expecting value"
  | fuel + 1, s =>
    match parseVal fuel s with
    | .error m => .error m
    | .ok (v, r1) =>
      match skipWS r1 with
      | ',' :: r2 => (parseElems fuel (skipWS r2)).map (fun p => (v :: p.1, p.2))
      | ']' :: r2 => .ok ([v], r2)
      | _ => .error "Expecting \x27,\x27 delimiter"

/-- Parse the members of a JSON object after `{`, first member due. -/
def parseMembers : Nat → PyStr → Except String (List (String × JVal) × PyStr)
  | 0, _ => .error "Expecting property name enclosed in double quotes"
  | fuel + 1, s =>
    match s with
    | '"' :: rest =>
      match parseStrBody fuel rest with
      | .error m => .error m
      | .ok (key, r1) =>
        match skipWS r1 with
        | ':' :: r2 =>
          match parseVal fuel (skipWS r2) with
          | .error m => .error m
          | .ok (v, r3) =>
            match skipWS r3 with
            | ',' :: r4 =>
              match skipWS r4 with
              | '"' :: _ =>
                (parseMembers fuel (skipWS r4)).map
                  (fun p => ((String.mk key, v) :: p.1, p.2))
              | _ => .error "Expecting property name enclosed in double quotes"
            | '}' :: r4 => .ok ([(String.mk key, v)], r4)
            | _ => .error "Expecting \x27,\x27 delimiter"
        | _ => .error "Expecting \x27:\x27 delimiter"
    | _ => .error "Expecting property name enclosed in double quotes"

end

/-- Model of `json.loads` on the fragment this service uses: strip the
surrounding whitespace, parse one JSON value, and reject leftover input.
Errors carry a message in the style of `json.JSONDecodeError`. -/
def jsonParse (s : PyStr) : Except String JVal :=
  match parseVal ((pyStrip s).length + 1) (pyStrip s) with
  | .error m => .error m
  | .ok (_, r :: _) => .error ("Extra data: " ++ String.mk [r])
  | .ok (v, []) => .ok v

/-- The Python type name of a JSON value, as used in error messages. -/
def pyTypeName : JVal → String
  | .null => "NoneType"
  | .boolean _ => "bool"
  | .num _ => "int"
  | .str _ => "str"
  | .arr _ => "list"
  | .obj _ => "dict"

mutual

/-- Python `repr` of a parsed JSON value (string quoting approximated
with single quotes, as CPython prefers). -/
def pyReprV : JVal → String
  | .null => "None"
  | .boolean true => "True"
  | .boolean false => "False"
  | .num n => toString n
  | .str s => "\x27" ++ s ++ "\x27"
  | .arr l => "[" ++ pyReprElems l ++ "]"
  | .obj fs => "\x7b" ++ pyReprFields fs ++ "\x7d"

/-- `repr` of list elements, comma separated. -/
def pyReprElems : List JVal → String
  | [] => ""
  | [v] => pyReprV v
  | v :: rest => pyReprV v ++ ", " ++ pyReprElems rest

/-- `repr` of dict items, comma separated. -/
def pyReprFields : List (String × JVal) → String
  | [] => ""
  | [(k, v)] => "\x27" ++ k ++ "\x27: " ++ pyReprV v
  | (k, v) :: rest => "\x27" ++ k ++ "\x27: " ++ pyReprV v ++ ", " ++ pyReprFields rest

end

/-- Python `str()` of a parsed JSON value (what an f-string interpolates). -/
def pyStrV : JVal → String
  | .null => "None"
  | .boolean true => "True"
  | .boolean false => "False"
  | .num n => toString n
  | .str s => s
  | .arr l => "[" ++ pyReprElems l ++ "]"
  | .obj fs => "\x7b" ++ pyReprFields fs ++ "\x7d"

/-- Python truthiness of a parsed JSON value. -/
def pyTruthy : JVal → Bool
  | .null => false
  | .boolean b => b
  | .num n => !(n == 0)
  | .str s => !s.isEmpty
  | .arr l => !l.isEmpty
  | .obj fs => !fs.isEmpty

/-- Lookup in the association list of an object; the last binding wins,
matching the overwrite behaviour of a Python dict built by `json.loads`. -/
def lookupField (k : String) : List (String × JVal) → Option JVal
  | [] => none
  | (k1, v) :: rest =>
    match lookupField k rest with
    | some r => some r
    | none => if k1 == k then some v else none

/-- A Python exception, as raised by the code paths modelled here. -/
inductive Exc where
  | keyError : String → Exc
  | typeError : String → Exc
  | attributeError : String → Exc
  | jsonDecode : String → Exc
  | runtime : String → Exc

/-- Python `str(e)` for the modelled exceptions (`str` of a `KeyError`
is the missing key in quotes). -/
def excStr : Exc → String
  | .keyError k => "\x27" ++ k ++ "\x27"
  | .typeError m => m
  | .attributeError m => m
  | .jsonDecode m => m
  | .runtime m => m

/-- Python subscript `v[k]` with a string key: `KeyError` on a dict
without the key, `TypeError` on non-dict values. -/
def pyGetItem (v : JVal) (k : String) : Except Exc JVal :=
  match v with
  | .obj fs =>
    match lookupField k fs with
    | some x => .ok x
    | none => .error (.keyError k)
  | .arr _ => .error (.typeError "list indices must be integers or slices, not str")
  | .str _ => .error (.typeError "string indices must be integers")
  | w => .error (.typeError ("\x27" ++ pyTypeName w ++ "\x27 object is not subscriptable"))

/-- Python `v.get(k, dflt)`: only dicts have a `get` attribute. -/
def pyDictGet (v : JVal) (k : String) (dflt : JVal) : Except Exc JVal :=
  match v with
  | .obj fs => .ok ((lookupField k fs).getD dflt)
  | w => .error (.attributeError
      ("\x27" ++ pyTypeName w ++ "\x27 object has no attribute \x27get\x27"))

/-- Python iteration `for ex in v`: lists yield their elements, strings
their characters (as one-character strings), dicts their keys; other
values raise `TypeError`. -/
def pyIter (v : JVal) : Except Exc (List JVal) :=
  match v with
  | .arr l => .ok l
  | .str s => .ok (s.data.map (fun c => JVal.str (String.mk [c])))
  | .obj fs => .ok (fs.map (fun p => JVal.str p.1))
  | w => .error (.typeError ("\x27" ++ pyTypeName w ++ "\x27 object is not iterable"))

/-- One formatted example entry (`src/app.py` lines 76-84 and 88-96).
`created` holds the formatted current date, passed in as `today`. -/
structure ExampleOut where
  text : JVal
  sentiment : String
  score : Int
  type : String
  author : String
  created : String
  reasoning : JVal

/-- A perspective group of the response (`src/app.py` lines 109-118). -/
structure PerspectiveOut where
  percentage : JVal
  count : String
  examples : List ExampleOut

/-- The copied-through sentiment distribution (`src/app.py` lines 104-108). -/
structure DistOut where
  positive : JVal
  negative : JVal
  neutral : JVal

/-- The full response dictionary built by `format_response`
(`src/app.py` lines 100-123); `timestamp` holds the formatted current
time, passed in as `now`. -/
structure AnalysisResult where
  topic : JVal
  total_analyzed : String
  posts_analyzed : String
  sentiment_distribution : DistOut
  positive_perspective : PerspectiveOut
  negative_perspective : PerspectiveOut
  neutral_count : String
  analysis_summary : JVal
  timestamp : String
  powered_by : String

/-- One loop of `format_response`: format the examples of one group.
`base` is the starting score (100 positive, 95 negative), `authOff` the
author-index offset (1 positive, 6 negative), `i` the running index of
`enumerate`. Each entry reads `ex[\x27text\x27]` (which may raise) and
`ex.get(\x27reasoning\x27, \x27\x27)`. -/
def buildExamples (sent : String) (base : Int) (authOff : Nat) (today : String) :
    Nat → List JVal → Except Exc (List ExampleOut)
  | _, [] => .ok []
  | i, ex :: rest =>
    match pyGetItem ex "text" with
    | .error e => .error e
    | .ok t =>
      match pyDictGet ex "reasoning" (.str "") with
      | .error e => .error e
      | .ok r =>
        match buildExamples sent base authOff today (i + 1) rest with
        | .error e => .error e
        | .ok tail =>
          .ok ({ text := t, sentiment := sent, score := base - 15 * (i : Int),
                 type := "opinion", author := "user_" ++ toString (i + authOff),
                 created := today, reasoning := r } :: tail)

/-- `format_response(topic, gemini_data)` (`src/app.py` lines 70-125).
The two wall-clock reads are passed in as `today` (date per example) and
`now` (ISO timestamp); repeated pure dict lookups are hoisted, which
preserves both values and the first exception raised. -/
def format_response (topic gemini_data : JVal) (today now : String) :
    Except Exc AnalysisResult :=
  match pyGetItem gemini_data "positive_examples" with
  | .error e => .error e
  | .ok pv =>
    match pyIter pv with
    | .error e => .error e
    | .ok pexs =>
      match buildExamples "positive" 100 1 today 0 pexs with
      | .error e => .error e
      | .ok positive_examples =>
        match pyGetItem gemini_data "negative_examples" with
        | .error e => .error e
        | .ok nv =>
          match pyIter nv with
          | .error e => .error e
          | .ok nexs =>
            match buildExamples "negative" 95 6 today 0 nexs with
            | .error e => .error e
            | .ok negative_examples =>
              match pyGetItem gemini_data "sentiment_distribution" with
              | .error e => .error e
              | .ok sentiment_dist =>
                match pyGetItem sentiment_dist "positive" with
                | .error e => .error e
                | .ok pval =>
                  match pyGetItem sentiment_dist "negative" with
                  | .error e => .error e
                  | .ok nval =>
                    match pyGetItem sentiment_dist "neutral" with
                    | .error e => .error e
                    | .ok uval =>
                      match pyDictGet gemini_data "analysis_summary" (.str "") with
                      | .error e => .error e
                      | .ok summ =>
                        .ok { topic := topic,
                              total_analyzed := "AI Analysis",
                              posts_analyzed := "Multiple Sources",
                              sentiment_distribution :=
                                { positive := pval, negative := nval, neutral := uval },
                              positive_perspective :=
                                { percentage := pval, count := pyStrV pval ++ "%",
                                  examples := positive_examples },
                              negative_perspective :=
                                { percentage := nval, count := pyStrV nval ++ "%",
                                  examples := negative_examples },
                              neutral_count := pyStrV uval ++ "%",
                              analysis_summary := summ,
                              timestamp := now,
                              powered_by := "Gemini 2.0 Flash" }

/-- Truthiness of `os.environ.get(name)`: `False` exactly when the
variable is absent or set to the empty string. -/
def envVarTruthy : Option String → Bool
  | none => false
  | some s => !s.isEmpty

/-- The observable behaviour of the remote `generate_content` call for
one request: either the call (or reading `response.text`) raises, or it
yields a raw text. -/
inductive UpstreamBehavior where
  | raises : String → UpstreamBehavior
  | returns : PyStr → UpstreamBehavior

/-- `analyze_topic_with_gemini` (`src/app.py` lines 14-68) downstream of
the remote call: strip the text, extract the fenced JSON candidate, and
parse it with `json.loads`; a parse failure is a `json.JSONDecodeError`,
any upstream failure re-raises unchanged (the handler prints and
re-raises, which is transparent). -/
def analyze_topic_with_gemini (upstream : UpstreamBehavior) : Except Exc JVal :=
  match upstream with
  | .raises m => .error (.runtime m)
  | .returns text =>
    match jsonParse (extractCandidate text) with
    | .ok v => .ok v
    | .error m => .error (.jsonDecode m)

/-- The observable behaviour of `request.get_json()` for one request:
raise (no JSON body, or a syntactically invalid one), or return the
parsed JSON value (`JVal.null` models a body holding JSON `null`). -/
inductive BodyOutcome where
  | raises : String → BodyOutcome
  | returnsJson : JVal → BodyOutcome

/-- The body of an HTTP response of the service. -/
inductive RespBody where
  | errorBody : String → RespBody
  | resultBody : AnalysisResult → RespBody
  | healthBody : String → Bool → RespBody

/-- An HTTP response: status code and JSON body. -/
structure HttpResp where
  status : Nat
  body : RespBody

/-- `POST /api/analyze` (`src/app.py` lines 131-154). Inputs are the
request body outcome, the `GEMINI_API_KEY` environment variable, the
remote behaviour, and the two wall-clock reads. The second component
counts `generate_content` invocations performed while serving the
request. `except json.JSONDecodeError` precedes `except Exception`, so
only a `jsonDecode` failure yields the parse-failure message. -/
def analyze_topic (body : BodyOutcome) (geminiKeyEnv : Option String)
    (upstream : UpstreamBehavior) (today now : String) : HttpResp × Nat :=
  match body with
  | .raises m => (⟨500, .errorBody ("Analysis failed: " ++ m)⟩, 0)
  | .returnsJson data =>
    match pyDictGet data "topic" (.str "") with
    | .error e => (⟨500, .errorBody ("Analysis failed: " ++ excStr e)⟩, 0)
    | .ok topic =>
      if !pyTruthy topic then
        (⟨400, .errorBody "Topic is required"⟩, 0)
      else if !envVarTruthy geminiKeyEnv then
        (⟨500, .errorBody "GEMINI_API_KEY not configured"⟩, 0)
      else
        match analyze_topic_with_gemini upstream with
        | .error (.jsonDecode m) =>
          (⟨500, .errorBody ("Failed to parse AI response: " ++ m)⟩, 1)
        | .error e =>
          (⟨500, .errorBody ("Analysis failed: " ++ excStr e)⟩, 1)
        | .ok gemini_data =>
          match format_response topic gemini_data today now with
          | .error (.jsonDecode m) =>
            (⟨500, .errorBody ("Failed to parse AI response: " ++ m)⟩, 1)
          | .error e => (⟨500, .errorBody ("Analysis failed: " ++ excStr e)⟩, 1)
          | .ok result => (⟨200, .resultBody result⟩, 1)

/-- `GET /health` (`src/app.py` lines 156-162): always 200, reporting
whether the credential is configured; the second component counts
`generate_content` invocations (none occur in this handler's body). -/
def health_check (geminiKeyEnv : Option String) : HttpResp × Nat :=
  (⟨200, .healthBody "healthy" (envVarTruthy geminiKeyEnv)⟩, 0)

/-- A parsed upstream payload with five examples per group, used as a
concrete witness input. -/
def samplePayload5 : JVal :=
  .obj [("positive_examples", .arr [
          .obj [("text", .str "p1"), ("reasoning", .str "q1")],
          .obj [("text", .str "p2"), ("reasoning", .str "q2")],
          .obj [("text", .str "p3"), ("reasoning", .str "q3")],
          .obj [("text", .str "p4"), ("reasoning", .str "q4")],
          .obj [("text", .str "p5"), ("reasoning", .str "q5")]]),
        ("negative_examples", .arr [
          .obj [("text", .str "n1"), ("reasoning", .str "m1")],
          .obj [("text", .str "n2"), ("reasoning", .str "m2")],
          .obj [("text", .str "n3"), ("reasoning", .str "m3")],
          .obj [("text", .str "n4"), ("reasoning", .str "m4")],
          .obj [("text", .str "n5"), ("reasoning", .str "m5")]]),
        ("sentiment_distribution",
          .obj [("positive", .num 40), ("negative", .num 35), ("neutral", .num 25)]),
        ("analysis_summary", .str "mixed")]

/-- A parsed upstream payload with a single example per group, used as a
concrete counterexample input. -/
def samplePayload1 : JVal :=
  .obj [("positive_examples", .arr [.obj [("text", .str "p1")]]),
        ("negative_examples", .arr [.obj [("text", .str "n1")]]),
        ("sentiment_distribution",
          .obj [("positive", .num 50), ("negative", .num 30), ("neutral", .num 20)])]

/-- A parsed upstream payload whose distribution lies outside 0-100 and
does not sum to 100, with no `analysis_summary` and no `reasoning` keys,
used as a concrete witness input. -/
def samplePayloadWild : JVal :=
  .obj [("positive_examples", .arr [.obj [("text", .str "p1")]]),
        ("negative_examples", .arr [.obj [("text", .str "n1")]]),
        ("sentiment_distribution",
          .obj [("positive", .num 150), ("negative", .num (-20)), ("neutral", .num 7)])]

/-- A parsed upstream payload missing the `sentiment_distribution` key,
used as a concrete witness input. -/
def samplePayloadNoDist : JVal :=
  .obj [("positive_examples", .arr [.obj [("text", .str "p1")]]),
        ("negative_examples", .arr [.obj [("text", .str "n1")]])]

/-- The JSON text of `samplePayloadNoDist`, used as a concrete upstream
response in witnesses. -/
def noDistText : PyStr :=
  "\x7b\"positive_examples\": [\x7b\"text\": \"p1\"\x7d], \"negative_examples\": [\x7b\"text\": \"n1\"\x7d]\x7d".data

/-- The positive and negative score columns of a formatted result. -/
def scoreColumns (r : AnalysisResult) : List Int × List Int :=
  (r.positive_perspective.examples.map ExampleOut.score,
   r.negative_perspective.examples.map ExampleOut.score)

/-- The positive and negative author columns of a formatted result. -/
def authorColumns (r : AnalysisResult) : List String × List String :=
  (r.positive_perspective.examples.map ExampleOut.author,
   r.negative_perspective.examples.map ExampleOut.author)

/-- The sizes of the two example lists of a formatted result. -/
def exampleCounts (r : AnalysisResult) : Nat × Nat :=
  (r.positive_perspective.examples.length,
   r.negative_perspective.examples.length)

/-- The distribution-related fields of a formatted result. -/
def distView (r : AnalysisResult) :
    (JVal × JVal × JVal) × (JVal × String) × (JVal × String) × String × JVal :=
  ((r.sentiment_distribution.positive, r.sentiment_distribution.negative,
    r.sentiment_distribution.neutral),
   (r.positive_perspective.percentage, r.positive_perspective.count),
   (r.negative_perspective.percentage, r.negative_perspective.count),
   r.neutral_count, r.analysis_summary)

/-! ### Helper lemmas about the string machinery -/

theorem isPrefixOf_ex (a : PyStr) : ∀ b : PyStr,
    a.isPrefixOf b = true ↔ ∃ r, b = a ++ r := by
  induction a with
  | nil =>
    intro b
    simp [List.isPrefixOf]
  | cons c a ih =>
    intro b
    cases b with
    | nil => simp [List.isPrefixOf]
    | cons d b =>
      simp only [List.isPrefixOf, Bool.and_eq_true, beq_iff_eq, ih]
      constructor
      · rintro ⟨rfl, r, rfl⟩
        exact ⟨r, rfl⟩
      · rintro ⟨r, h⟩
        cases h
        exact ⟨rfl, r, rfl⟩

theorem isPrefixOf_append_self (a r : PyStr) : a.isPrefixOf (a ++ r) = true :=
  (isPrefixOf_ex a (a ++ r)).mpr ⟨r, rfl⟩

theorem isPrefixOf_mono_append {a b : PyStr} (r : PyStr)
    (h : a.isPrefixOf b = true) : a.isPrefixOf (b ++ r) = true := by
  rcases (isPrefixOf_ex a b).mp h with ⟨q, rfl⟩
  exact (isPrefixOf_ex a _).mpr ⟨q ++ r, by simp⟩

theorem takeBeforeFirst_pre (sep : PyStr) : ∀ x : PyStr,
    ∃ r, x = takeBeforeFirst sep x ++ r := by
  intro x
  induction x with
  | nil => exact ⟨[], rfl⟩
  | cons c rest ih =>
    cases h : sep.isPrefixOf (c :: rest) with
    | true => exact ⟨c :: rest, by simp [takeBeforeFirst, h]⟩
    | false =>
      rcases ih with ⟨r, hr⟩
      refine ⟨r, ?_⟩
      rw [takeBeforeFirst, h]
      simpa using congrArg (c :: ·) hr

theorem takeBeforeFirst_idem (sep : PyStr) : ∀ x : PyStr,
    takeBeforeFirst sep (takeBeforeFirst sep x) = takeBeforeFirst sep x := by
  intro x
  induction x with
  | nil => rfl
  | cons c rest ih =>
    cases h : sep.isPrefixOf (c :: rest) with
    | true => simp [takeBeforeFirst, h]
    | false =>
      have hnot : sep.isPrefixOf (c :: takeBeforeFirst sep rest) = false := by
        rcases takeBeforeFirst_pre sep rest with ⟨r, hr⟩
        cases hp : sep.isPrefixOf (c :: takeBeforeFirst sep rest) with
        | false => rfl
        | true =>
          have htr : sep.isPrefixOf (c :: rest) = true := by
            have := isPrefixOf_mono_append (a := sep) r hp
            simpa [← hr] using this
          rw [htr] at h
          exact absurd h (by simp)
      rw [takeBeforeFirst, h]
      simp only [if_neg Bool.false_ne_true]
      rw [takeBeforeFirst, hnot]
      simp [ih]

theorem takeBeforeFirst_of_not_contains {sep : PyStr} : ∀ {x : PyStr},
    containsSub sep x = false → takeBeforeFirst sep x = x := by
  intro x
  induction x with
  | nil => intro _; rfl
  | cons c rest ih =>
    intro h
    simp only [containsSub, Bool.or_eq_false_iff] at h
    simp [takeBeforeFirst, h.1, ih h.2]

theorem dropAfterFirst_self_append (sep x : PyStr) (h : sep ≠ []) :
    dropAfterFirst sep (sep ++ x) = x := by
  cases sep with
  | nil => exact absurd rfl h
  | cons a sep =>
    have hpre : (a :: sep).isPrefixOf ((a :: sep) ++ x) = true :=
      isPrefixOf_append_self _ _
    simp only [List.cons_append] at hpre ⊢
    simp only [dropAfterFirst, hpre, if_true]
    simp [List.drop_left sep x]

theorem containsSub_self_append (sep x : PyStr) (h : sep ≠ []) :
    containsSub sep (sep ++ x) = true := by
  cases sep with
  | nil => exact absurd rfl h
  | cons a sep =>
    simp only [List.cons_append, containsSub]
    simp [isPrefixOf_append_self (a :: sep) x]

theorem consHead_headD (c : Char) (l : List PyStr) :
    (consHead c l).headD [] = c :: l.headD [] := by
  cases l <;> rfl

theorem consHead_getD1 (c : Char) (l : List PyStr) (h : l ≠ []) :
    (consHead c l).getD 1 [] = l.getD 1 [] := by
  cases l with
  | nil => exact absurd rfl h
  | cons chunk more => cases more <;> rfl

theorem splitOnGo_ne_nil (sep : PyStr) : ∀ (fuel : Nat) (s : PyStr),
    splitOnGo sep fuel s ≠ [] := by
  intro fuel
  induction fuel with
  | zero => intro s; cases s <;> simp [splitOnGo]
  | succ fuel ih =>
    intro s
    cases s with
    | nil => simp [splitOnGo]
    | cons c rest =>
      rw [splitOnGo]
      cases h : (!sep.isEmpty && sep.isPrefixOf (c :: rest)) with
      | true => simp [h]
      | false =>
        simp only [h, if_neg Bool.false_ne_true]
        cases hsp : splitOnGo sep fuel rest with
        | nil => exact absurd hsp (ih rest)
        | cons chunk more => simp [consHead]

theorem split_headD_cons (a : Char) (sep0 : PyStr) : ∀ (fuel : Nat) (s : PyStr),
    s.length ≤ fuel →
    (splitOnGo (a :: sep0) fuel s).headD [] = takeBeforeFirst (a :: sep0) s := by
  intro fuel
  induction fuel with
  | zero =>
    intro s hlen
    have hs : s = [] := by
      cases s with
      | nil => rfl
      | cons c rest => simp at hlen
    subst hs
    rfl
  | succ fuel ih =>
    intro s hlen
    cases s with
    | nil => rfl
    | cons c rest =>
      rw [splitOnGo]
      cases h : (a :: sep0).isPrefixOf (c :: rest) with
      | true =>
        simp only [List.isEmpty_cons, Bool.not_false, h, Bool.and_self, if_true]
        simp [takeBeforeFirst, h]
      | false =>
        simp only [List.isEmpty_cons, Bool.not_false, h, Bool.true_and,
          if_neg Bool.false_ne_true]
        rw [consHead_headD, takeBeforeFirst, h]
        simp only [if_neg Bool.false_ne_true]
        have hlen2 : rest.length ≤ fuel := by
          simp only [List.length_cons] at hlen
          omega
        rw [ih rest hlen2]

theorem split_headD (sep : PyStr) (hsep : sep ≠ []) (fuel : Nat) (s : PyStr)
    (hlen : s.length ≤ fuel) :
    (splitOnGo sep fuel s).headD [] = takeBeforeFirst sep s := by
  cases sep with
  | nil => exact absurd rfl hsep
  | cons a sep0 => exact split_headD_cons a sep0 fuel s hlen

theorem split_getD1_cons (a : Char) (sep0 : PyStr) : ∀ (fuel : Nat) (s : PyStr),
    containsSub (a :: sep0) s = true → s.length ≤ fuel →
    (splitOnGo (a :: sep0) fuel s).getD 1 [] =
      takeBeforeFirst (a :: sep0) (dropAfterFirst (a :: sep0) s) := by
  intro fuel
  induction fuel with
  | zero =>
    intro s hc hlen
    have hs : s = [] := by
      cases s with
      | nil => rfl
      | cons c rest => simp at hlen
    subst hs
    simp [containsSub] at hc
  | succ fuel ih =>
    intro s hc hlen
    cases s with
    | nil => simp [containsSub] at hc
    | cons c rest =>
      rw [splitOnGo]
      cases h : (a :: sep0).isPrefixOf (c :: rest) with
      | true =>
        simp only [List.isEmpty_cons, Bool.not_false, h, Bool.and_self, if_true]
        have hlen2 : (rest.drop ((a :: sep0).length - 1)).length ≤ fuel := by
          have := List.length_drop ((a :: sep0).length - 1) rest
          simp only [List.length_cons] at hlen
          omega
        rw [List.getD_cons_succ, dropAfterFirst, h]
        simp only [if_true]
        have hd0 : ∀ (l : List PyStr), l.getD 0 [] = l.headD [] := by
          intro l
          cases l <;> rfl
        rw [hd0, split_headD _ (by simp) fuel _ hlen2]
      | false =>
        simp only [List.isEmpty_cons, Bool.not_false, h, Bool.true_and,
          if_neg Bool.false_ne_true]
        have hcrest : containsSub (a :: sep0) rest = true := by
          rw [containsSub, h] at hc
          simpa using hc
        have hlen2 : rest.length ≤ fuel := by
          simp only [List.length_cons] at hlen
          omega
        rw [consHead_getD1 _ _ (splitOnGo_ne_nil _ fuel rest),
            ih rest hcrest hlen2, dropAfterFirst, h]
        simp only [if_neg Bool.false_ne_true]

theorem split_getD1 (sep : PyStr) (hsep : sep ≠ []) (fuel : Nat) (s : PyStr)
    (hc : containsSub sep s = true) (hlen : s.length ≤ fuel) :
    (splitOnGo sep fuel s).getD 1 [] =
      takeBeforeFirst sep (dropAfterFirst sep s) := by
  cases sep with
  | nil => exact absurd rfl hsep
  | cons a sep0 => exact split_getD1_cons a sep0 fuel s hc hlen

theorem pyStrip_cons_space {c : Char} (h : isPySpace c = true) (x : PyStr) :
    pyStrip (c :: x) = pyStrip x := by
  unfold pyStrip
  rw [List.dropWhile_cons, if_pos h]

theorem pyStrip_append_space {c : Char} (h : isPySpace c = true) (x : PyStr) :
    pyStrip (x ++ [c]) = pyStrip x := by
  unfold pyStrip
  rw [List.dropWhile_append]
  cases hd : (x.dropWhile isPySpace).isEmpty with
  | true =>
    have hx : x.dropWhile isPySpace = [] := by
      simpa [List.isEmpty_iff] using hd
    simp [hx, List.dropWhile_cons, h]
  | false =>
    simp only [if_neg Bool.false_ne_true]
    rw [List.reverse_append]
    simp only [List.reverse_cons, List.reverse_nil, List.nil_append,
      List.singleton_append, List.dropWhile_cons, if_pos h]

theorem dropWhile_head_false {p : Char → Bool} : ∀ {l : List Char} {c : Char}
    {t : List Char}, l.dropWhile p = c :: t → p c = false := by
  intro l
  induction l with
  | nil => intro c t h; exact absurd h (by simp)
  | cons d rest ih =>
    intro c t h
    rw [List.dropWhile_cons] at h
    cases hd : p d with
    | true => rw [hd, if_pos rfl] at h; exact ih h
    | false =>
      rw [hd, if_neg Bool.false_ne_true] at h
      cases h
      exact hd

theorem dropWhile_pyStrip (s : PyStr) :
    (pyStrip s).dropWhile isPySpace = pyStrip s := by
  unfold pyStrip
  cases ha : s.dropWhile isPySpace with
  | nil => simp
  | cons c t =>
    have hc : isPySpace c = false := dropWhile_head_false ha
    rw [List.reverse_cons, List.dropWhile_append]
    cases hd : (t.reverse.dropWhile isPySpace).isEmpty with
    | true => simp [hd, List.dropWhile_cons, hc]
    | false =>
      simp only [hd, if_neg Bool.false_ne_true]
      simp [List.reverse_append, List.dropWhile_cons, hc]

theorem pyStrip_idem (s : PyStr) : pyStrip (pyStrip s) = pyStrip s := by
  have h1 := dropWhile_pyStrip s
  show (((pyStrip s).dropWhile isPySpace).reverse.dropWhile isPySpace).reverse = pyStrip s
  rw [h1]
  have h2 : (pyStrip s).reverse = (s.dropWhile isPySpace).reverse.dropWhile isPySpace := by
    unfold pyStrip
    rw [List.reverse_reverse]
  rw [h2, List.dropWhile_idempotent, ← h2, List.reverse_reverse]

theorem tripleTick_eq : tripleTick = ['`', '`', '`'] := rfl

theorem jsonFence_eq : jsonFence = ['`', '`', '`', 'j', 's', 'o', 'n'] := rfl

theorem tick_not_prefix_newline (x : PyStr) :
    tripleTick.isPrefixOf ('\n' :: x) = false := by
  simp [tripleTick_eq, List.isPrefixOf]

theorem fence_not_prefix_newline (x : PyStr) :
    jsonFence.isPrefixOf ('\n' :: x) = false := by
  simp [jsonFence_eq, List.isPrefixOf]

theorem isPrefixOf_of_append {a b x : PyStr}
    (h : (a ++ b).isPrefixOf x = true) : a.isPrefixOf x = true := by
  rcases (isPrefixOf_ex (a ++ b) x).mp h with ⟨r, rfl⟩
  rw [List.append_assoc]
  exact isPrefixOf_append_self a (b ++ r)

theorem tick_not_prefix_sep : ∀ {s : PyStr},
    containsSub tripleTick s = false → ∀ rest : PyStr,
    tripleTick.isPrefixOf (s ++ '\n' :: rest) = false := by
  intro s
  match s with
  | [] =>
    intro _ rest
    exact tick_not_prefix_newline rest
  | [c] =>
    intro _ rest
    simp [tripleTick_eq, List.isPrefixOf]
  | [c, d] =>
    intro _ rest
    simp [tripleTick_eq, List.isPrefixOf]
  | c :: d :: e :: s3 =>
    intro h rest
    have h1 : tripleTick.isPrefixOf (c :: d :: e :: s3) = false := by
      rw [containsSub] at h
      rcases Bool.or_eq_false_iff.mp h with ⟨h1, _⟩
      exact h1
    simp only [tripleTick_eq, List.isPrefixOf, List.cons_append,
      Bool.and_eq_false_iff] at h1 ⊢
    exact h1

theorem takeBefore_fence_tail : ∀ {J : PyStr},
    containsSub tripleTick J = false →
    takeBeforeFirst tripleTick (J ++ '\n' :: tripleTick) = J ++ ['\n'] := by
  intro J
  induction J with
  | nil => intro _; decide
  | cons c J ih =>
    intro h
    rw [containsSub] at h
    rcases Bool.or_eq_false_iff.mp h with ⟨h1, h2⟩
    have hp : tripleTick.isPrefixOf ((c :: J) ++ '\n' :: tripleTick) = false :=
      tick_not_prefix_sep (by rw [containsSub]; exact Bool.or_eq_false_iff.mpr ⟨h1, h2⟩)
        tripleTick
    rw [List.cons_append] at hp ⊢
    rw [takeBeforeFirst, hp]
    simp only [if_neg Bool.false_ne_true]
    rw [ih h2, List.cons_append]

theorem not_contains_fence_tail : ∀ {J : PyStr},
    containsSub tripleTick J = false →
    containsSub jsonFence (J ++ '\n' :: tripleTick) = false := by
  intro J
  induction J with
  | nil => intro _; decide
  | cons c J ih =>
    intro h
    rw [containsSub] at h
    rcases Bool.or_eq_false_iff.mp h with ⟨h1, h2⟩
    rw [List.cons_append, containsSub]
    refine Bool.or_eq_false_iff.mpr ⟨?_, ih h2⟩
    cases hp : jsonFence.isPrefixOf (c :: (J ++ '\n' :: tripleTick)) with
    | false => rfl
    | true =>
      have htick : tripleTick.isPrefixOf (c :: (J ++ '\n' :: tripleTick)) = true := by
        have : jsonFence = tripleTick ++ "json".data := rfl
        rw [this] at hp
        exact isPrefixOf_of_append hp
      have hfalse : tripleTick.isPrefixOf ((c :: J) ++ '\n' :: tripleTick) = false :=
        tick_not_prefix_sep (by rw [containsSub]; exact Bool.or_eq_false_iff.mpr ⟨h1, h2⟩)
          tripleTick
      rw [List.cons_append] at hfalse
      rw [htick] at hfalse
      exact hfalse

theorem pyStrip_of_no_space_ends {a b : Char} (ha : isPySpace a = false)
    (hb : isPySpace b = false) (x : PyStr) :
    pyStrip (a :: (x ++ [b])) = a :: (x ++ [b]) := by
  unfold pyStrip
  rw [List.dropWhile_cons, if_neg (by simp [ha])]
  rw [show (a :: (x ++ [b])).reverse = b :: (x.reverse ++ [a]) by simp]
  rw [List.dropWhile_cons, if_neg (by simp [hb])]
  rw [show (b :: (x.reverse ++ [a])).reverse = a :: (x ++ [b]) by simp]

theorem wrapJson_shape (J : PyStr) :
    wrapJson J = jsonFence ++ ('\n' :: (J ++ '\n' :: tripleTick)) := by
  rw [wrapJson, show "```json\n".data = jsonFence ++ ['\n'] from rfl,
      show "\n```".data = '\n' :: tripleTick from rfl]
  simp [List.append_assoc]

theorem pyStrip_wrapJson (J : PyStr) : pyStrip (wrapJson J) = wrapJson J := by
  have hshape : wrapJson J = '`' :: (("``json\n".data ++ J ++ "\n``".data) ++ ['`']) := by
    rw [wrapJson, show "```json\n".data = '`' :: "``json\n".data from rfl,
        show "\n```".data = "\n``".data ++ ['`'] from rfl]
    simp [List.append_assoc]
  rw [hshape]
  exact pyStrip_of_no_space_ends (by decide) (by decide) _

theorem contains_fence_wrapJson (J : PyStr) :
    containsSub jsonFence (wrapJson J) = true := by
  rw [wrapJson_shape]
  exact containsSub_self_append _ _ (by decide)

theorem splitOnL_getD1 {sep : PyStr} (hsep : sep ≠ []) {s : PyStr}
    (hc : containsSub sep s = true) :
    (splitOnL sep s).getD 1 [] = takeBeforeFirst sep (dropAfterFirst sep s) := by
  rw [splitOnL]
  exact split_getD1 sep hsep s.length s hc (le_refl _)

theorem splitOnL_headD {sep : PyStr} (hsep : sep ≠ []) (s : PyStr) :
    (splitOnL sep s).headD [] = takeBeforeFirst sep s := by
  rw [splitOnL]
  exact split_headD sep hsep s.length s (le_refl _)

theorem extract_wrapJson {J : PyStr} (h : containsSub tripleTick J = false) :
    extractCandidate (wrapJson J) = pyStrip J := by
  have hcont := contains_fence_wrapJson J
  unfold extractCandidate
  rw [pyStrip_wrapJson, if_pos hcont]
  rw [splitOnL_getD1 (by decide) hcont]
  rw [wrapJson_shape, dropAfterFirst_self_append jsonFence _ (by decide)]
  have hnc : containsSub jsonFence ('\n' :: (J ++ '\n' :: tripleTick)) = false := by
    rw [containsSub]
    exact Bool.or_eq_false_iff.mpr
      ⟨fence_not_prefix_newline _, not_contains_fence_tail h⟩
  rw [takeBeforeFirst_of_not_contains hnc]
  rw [splitOnL_headD (by decide)]
  rw [takeBeforeFirst, tick_not_prefix_newline]
  simp only [if_neg Bool.false_ne_true]
  rw [takeBefore_fence_tail h]
  rw [show ('\n' :: (J ++ ['\n'])) = '\n' :: (J ++ ['\n']) from rfl]
  rw [pyStrip_cons_space (by decide), pyStrip_append_space (by decide)]

/-! ### Claim theorems -/

/-- C3, counterexample: the claim as stated (extraction takes the content
between the first json delimiter and the next generic delimiter,
`claimedExtract`) disagrees with the code on the input
`"```json````json ok ```"`: the code extracts a lone backtick while the
claimed description extracts the empty string. -/
theorem claim_C3_counterexample :
    extractCandidate "```json````json ok ```".data = "`".data ∧
    claimedExtract "```json````json ok ```".data = "".data ∧
    extractCandidate "```json````json ok ```".data ≠
      claimedExtract "```json````json ok ```".data := by
  exact ⟨by decide, by decide, by decide⟩

/-- C3 (amended): for every upstream response text, after stripping
surrounding whitespace the client extracts the JSON candidate as follows:
if the text contains the delimiter ```` ```json ```` it takes the segment
between the first occurrence of ```` ```json ```` and the next
non-overlapping occurrence (or the end), truncated at the first ```` ``` ````
within that segment; otherwise, if the text contains ```` ``` ```` it
takes the content between the first pair of ```` ``` ```` delimiters;
otherwise it uses the full text; the chosen candidate is then stripped. -/
theorem claim_C3_extraction (raw : PyStr) :
    extractCandidate raw = amendedExtract raw := by
  unfold extractCandidate amendedExtract
  by_cases h1 : containsSub jsonFence (pyStrip raw) = true
  · rw [if_pos h1, if_pos h1]
    rw [splitOnL_getD1 (by decide) h1, splitOnL_headD (by decide)]
  · rw [if_neg h1, if_neg h1]
    by_cases h2 : containsSub tripleTick (pyStrip raw) = true
    · rw [if_pos h2, if_pos h2]
      rw [splitOnL_getD1 (by decide) h2, splitOnL_headD (by decide),
        takeBeforeFirst_idem]
    · rw [if_neg h2, if_neg h2]

/-- C5, counterexample: for the JSON text `"a```b"` (a JSON string
containing a fence delimiter), wrapping in a json fence and extracting
truncates inside the string literal, so parsing the extraction fails
while parsing the text directly succeeds — the round-trip claim is
false for this JSON text. -/
theorem claim_C5_counterexample :
    jsonParse "\"a```b\"".data = .ok (.str "a```b") ∧
    jsonParse (extractCandidate (wrapJson "\"a```b\"".data)) =
      .error "Unterminated string starting at" ∧
    jsonParse (extractCandidate (wrapJson "\"a```b\"".data)) ≠
      jsonParse "\"a```b\"".data := by
  refine ⟨rfl, rfl, fun hcontra => ?_⟩
  rw [show jsonParse (extractCandidate (wrapJson "\"a```b\"".data)) =
      .error "Unterminated string starting at" from rfl] at hcontra
  exact Except.noConfusion hcontra

/-- C5 (amended): for every text `J` that does not contain the fence
delimiter ```` ``` ```` as a substring, applying the client extraction to
the upstream response ```` ```json\nJ\n``` ```` and parsing yields the
same result as parsing `J` directly. -/
theorem claim_C5_fenced_roundtrip (J : PyStr)
    (h : containsSub tripleTick J = false) :
    jsonParse (extractCandidate (wrapJson J)) = jsonParse J := by
  rw [extract_wrapJson h]
  unfold jsonParse
  rw [pyStrip_idem]

/-- C5, witness: the amended round-trip at the concrete JSON object
text `{"a": 1}`. -/
theorem claim_C5_witness :
    containsSub tripleTick "\x7b\"a\": 1\x7d".data = false ∧
    jsonParse (extractCandidate (wrapJson "\x7b\"a\": 1\x7d".data)) =
      jsonParse "\x7b\"a\": 1\x7d".data ∧
    jsonParse "\x7b\"a\": 1\x7d".data = .ok (.obj [("a", .num 1)]) :=
  ⟨by decide, claim_C5_fenced_roundtrip _ (by decide), rfl⟩

/-! ### Helper lemmas about the formatter -/

theorem buildExamples_ok_length {sent : String} {base : Int} {authOff : Nat}
    {today : String} : ∀ {l : List JVal} {i : Nat} {out : List ExampleOut},
    buildExamples sent base authOff today i l = .ok out →
    out.length = l.length := by
  intro l
  induction l with
  | nil =>
    intro i out h
    rw [buildExamples] at h
    cases h
    rfl
  | cons ex rest ih =>
    intro i out h
    rw [buildExamples] at h
    split at h
    · exact Except.noConfusion h
    · split at h
      · exact Except.noConfusion h
      · split at h
        · exact Except.noConfusion h
        · rename_i tail htail
          cases h
          simp [ih htail]

theorem buildExamples_ok_get {sent : String} {base : Int} {authOff : Nat}
    {today : String} : ∀ {l : List JVal} {i : Nat} {out : List ExampleOut},
    buildExamples sent base authOff today i l = .ok out →
    ∀ j (hj : j < out.length),
      (out.get ⟨j, hj⟩).score = base - 15 * ((i + j : Nat) : Int) ∧
      (out.get ⟨j, hj⟩).author = "user_" ++ toString (i + j + authOff) ∧
      (out.get ⟨j, hj⟩).sentiment = sent ∧
      (out.get ⟨j, hj⟩).type = "opinion" ∧
      (out.get ⟨j, hj⟩).created = today := by
  intro l
  induction l with
  | nil =>
    intro i out h j hj
    rw [buildExamples] at h
    cases h
    simp at hj
  | cons ex rest ih =>
    intro i out h j hj
    rw [buildExamples] at h
    split at h
    · exact Except.noConfusion h
    · split at h
      · exact Except.noConfusion h
      · split at h
        · exact Except.noConfusion h
        · rename_i tail htail
          cases h
          cases j with
          | zero => refine ⟨by simp, by simp, rfl, rfl, rfl⟩
          | succ j0 =>
            have hj0 : j0 < tail.length := by
              simp only [List.length_cons] at hj
              omega
            have := ih htail j0 hj0
            refine ⟨?_, ?_, this.2.2.1, this.2.2.2.1, this.2.2.2.2⟩
            · have h1 := this.1
              simp only [List.get_cons_succ]
              rw [h1]
              congr 1
              push_cast
              ring
            · have h2 := this.2.1
              simp only [List.get_cons_succ]
              rw [h2]
              congr 2
              omega

theorem buildExamples_ok_src {sent : String} {base : Int} {authOff : Nat}
    {today : String} : ∀ {l : List JVal} {i : Nat} {out : List ExampleOut},
    buildExamples sent base authOff today i l = .ok out →
    ∀ j (hj : j < l.length), ∃ hj' : j < out.length,
      pyGetItem (l.get ⟨j, hj⟩) "text" = .ok ((out.get ⟨j, hj'⟩).text) ∧
      pyDictGet (l.get ⟨j, hj⟩) "reasoning" (.str "") =
        .ok ((out.get ⟨j, hj'⟩).reasoning) := by
  intro l
  induction l with
  | nil =>
    intro i out h j hj
    simp at hj
  | cons ex rest ih =>
    intro i out h j hj
    rw [buildExamples] at h
    split at h
    · exact Except.noConfusion h
    · split at h
      · exact Except.noConfusion h
      · split at h
        · exact Except.noConfusion h
        · rename_i x1 tv htv x2 rv hrv x3 tail htail
          cases h
          cases j with
          | zero =>
            refine ⟨by simp, ?_, ?_⟩
            · simpa using htv
            · simpa using hrv
          | succ j0 =>
            have hj0 : j0 < rest.length := by
              simp only [List.length_cons] at hj
              omega
            rcases ih htail j0 hj0 with ⟨hj', hx, hr⟩
            refine ⟨by simpa using hj', ?_, ?_⟩
            · simpa using hx
            · simpa using hr

theorem format_response_ok_inv {topic gd : JVal} {today now : String}
    {r : AnalysisResult} (h : format_response topic gd today now = .ok r) :
    ∃ pv pexs nv nexs sd pval nval uval summ,
      pyGetItem gd "positive_examples" = .ok pv ∧
      pyIter pv = .ok pexs ∧
      buildExamples "positive" 100 1 today 0 pexs =
        .ok r.positive_perspective.examples ∧
      pyGetItem gd "negative_examples" = .ok nv ∧
      pyIter nv = .ok nexs ∧
      buildExamples "negative" 95 6 today 0 nexs =
        .ok r.negative_perspective.examples ∧
      pyGetItem gd "sentiment_distribution" = .ok sd ∧
      pyGetItem sd "positive" = .ok pval ∧
      pyGetItem sd "negative" = .ok nval ∧
      pyGetItem sd "neutral" = .ok uval ∧
      pyDictGet gd "analysis_summary" (.str "") = .ok summ ∧
      r = { topic := topic, total_analyzed := "AI Analysis",
            posts_analyzed := "Multiple Sources",
            sentiment_distribution := ⟨pval, nval, uval⟩,
            positive_perspective :=
              ⟨pval, pyStrV pval ++ "%", r.positive_perspective.examples⟩,
            negative_perspective :=
              ⟨nval, pyStrV nval ++ "%", r.negative_perspective.examples⟩,
            neutral_count := pyStrV uval ++ "%",
            analysis_summary := summ, timestamp := now,
            powered_by := "Gemini 2.0 Flash" } := by
  rw [format_response] at h
  split at h
  · exact Except.noConfusion h
  split at h
  · exact Except.noConfusion h
  split at h
  · exact Except.noConfusion h
  split at h
  · exact Except.noConfusion h
  split at h
  · exact Except.noConfusion h
  split at h
  · exact Except.noConfusion h
  split at h
  · exact Except.noConfusion h
  split at h
  · exact Except.noConfusion h
  split at h
  · exact Except.noConfusion h
  split at h
  · exact Except.noConfusion h
  split at h
  · exact Except.noConfusion h
  rename_i xs summ hsumm
  rename_i xu uval huval
  rename_i xn nval hnval
  rename_i xp pval hpval
  rename_i xsd sd hsd
  rename_i xne negex hnegex
  rename_i xni nexs hnexs
  rename_i xnv nv hnv
  rename_i xpe posex hposex
  rename_i xpi pexs hpexs
  rename_i xpv pv hpv
  cases h
  exact ⟨pv, pexs, nv, nexs, sd, pval, nval, uval, summ,
    hpv, hpexs, hposex, hnv, hnexs, hnegex, hsd, hpval, hnval, huval, hsumm, rfl⟩

theorem pyGetItem_error_not_decode {v : JVal} {k : String} {e : Exc}
    (h : pyGetItem v k = .error e) : ∀ m, e ≠ Exc.jsonDecode m := by
  intro m hcontra
  subst hcontra
  cases v with
  | obj fs =>
    rw [pyGetItem] at h
    cases hl : lookupField k fs with
    | some x => rw [hl] at h; exact Except.noConfusion h
    | none => rw [hl] at h; exact Exc.noConfusion (Except.error.inj h)
  | null => exact Exc.noConfusion (Except.error.inj h)
  | boolean b => exact Exc.noConfusion (Except.error.inj h)
  | num n => exact Exc.noConfusion (Except.error.inj h)
  | str s => exact Exc.noConfusion (Except.error.inj h)
  | arr l => exact Exc.noConfusion (Except.error.inj h)

theorem pyDictGet_error_not_decode {v : JVal} {k : String} {d : JVal} {e : Exc}
    (h : pyDictGet v k d = .error e) : ∀ m, e ≠ Exc.jsonDecode m := by
  intro m hcontra
  subst hcontra
  cases v with
  | obj fs => exact Except.noConfusion h
  | null => exact Exc.noConfusion (Except.error.inj h)
  | boolean b => exact Exc.noConfusion (Except.error.inj h)
  | num n => exact Exc.noConfusion (Except.error.inj h)
  | str s => exact Exc.noConfusion (Except.error.inj h)
  | arr l => exact Exc.noConfusion (Except.error.inj h)

theorem pyIter_error_not_decode {v : JVal} {e : Exc}
    (h : pyIter v = .error e) : ∀ m, e ≠ Exc.jsonDecode m := by
  intro m hcontra
  subst hcontra
  cases v with
  | obj fs => exact Except.noConfusion h
  | null => exact Exc.noConfusion (Except.error.inj h)
  | boolean b => exact Exc.noConfusion (Except.error.inj h)
  | num n => exact Exc.noConfusion (Except.error.inj h)
  | str s => exact Except.noConfusion h
  | arr l => exact Except.noConfusion h

theorem buildExamples_error_not_decode {sent : String} {base : Int}
    {authOff : Nat} {today : String} : ∀ {l : List JVal} {i : Nat} {e : Exc},
    buildExamples sent base authOff today i l = .error e →
    ∀ m, e ≠ Exc.jsonDecode m := by
  intro l
  induction l with
  | nil =>
    intro i e h
    rw [buildExamples] at h
    exact Except.noConfusion h
  | cons ex rest ih =>
    intro i e h
    rw [buildExamples] at h
    split at h
    · rename_i e1 he1
      cases h
      exact pyGetItem_error_not_decode he1
    · split at h
      · rename_i e1 he1
        cases h
        exact pyDictGet_error_not_decode he1
      · split at h
        · rename_i e1 he1
          cases h
          exact ih he1
        · exact Except.noConfusion h

theorem format_response_error_not_decode {topic gd : JVal} {today now : String}
    {e : Exc} (h : format_response topic gd today now = .error e) :
    ∀ m, e ≠ Exc.jsonDecode m := by
  rw [format_response] at h
  split at h
  · rename_i e1 he1
    cases h
    exact pyGetItem_error_not_decode he1
  split at h
  · rename_i e1 he1
    cases h
    exact pyIter_error_not_decode he1
  split at h
  · rename_i e1 he1
    cases h
    exact buildExamples_error_not_decode he1
  split at h
  · rename_i e1 he1
    cases h
    exact pyGetItem_error_not_decode he1
  split at h
  · rename_i e1 he1
    cases h
    exact pyIter_error_not_decode he1
  split at h
  · rename_i e1 he1
    cases h
    exact buildExamples_error_not_decode he1
  split at h
  · rename_i e1 he1
    cases h
    exact pyGetItem_error_not_decode he1
  split at h
  · rename_i e1 he1
    cases h
    exact pyGetItem_error_not_decode he1
  split at h
  · rename_i e1 he1
    cases h
    exact pyGetItem_error_not_decode he1
  split at h
  · rename_i e1 he1
    cases h
    exact pyGetItem_error_not_decode he1
  split at h
  · rename_i e1 he1
    cases h
    exact pyDictGet_error_not_decode he1
  exact Except.noConfusion h

theorem map_score_of_five (base : Int) {out : List ExampleOut}
    (hlen : out.length = 5)
    (hs : ∀ i (hi : i < out.length),
      (out.get ⟨i, hi⟩).score = base - 15 * (i : Int)) :
    out.map ExampleOut.score =
      [base, base - 15, base - 30, base - 45, base - 60] := by
  obtain ⟨a, b, c, d, e, rfl⟩ : ∃ a b c d e, out = [a, b, c, d, e] := by
    match out, hlen with
    | [a, b, c, d, e], _ => exact ⟨a, b, c, d, e, rfl⟩
  have e0 : a.score = base - 15 * ((0 : Nat) : Int) := hs 0 (by simp)
  have e1 : b.score = base - 15 * ((1 : Nat) : Int) := hs 1 (by simp)
  have e2 : c.score = base - 15 * ((2 : Nat) : Int) := hs 2 (by simp)
  have e3 : d.score = base - 15 * ((3 : Nat) : Int) := hs 3 (by simp)
  have e4 : e.score = base - 15 * ((4 : Nat) : Int) := hs 4 (by simp)
  push_cast at e0 e1 e2 e3 e4
  have f0 : a.score = base := by omega
  have f1 : b.score = base - 15 := by omega
  have f2 : c.score = base - 30 := by omega
  have f3 : d.score = base - 45 := by omega
  have f4 : e.score = base - 60 := by omega
  simp [f0, f1, f2, f3, f4]

/-- C1: whenever `format_response` succeeds, the example at 0-based
index `i` of the positive group has score `100 - 15*i` and author
`"user_" ++ (i+1)`, and the example at index `i` of the negative group
has score `95 - 15*i` and author `"user_" ++ (i+6)`, with no clamping
(the formulas hold for every index, so scores go negative for long
lists); in particular, when the upstream lists have exactly 5 items the
score sequences are `100,85,70,55,40` and `95,80,65,50,35`. -/
theorem claim_C1_scores_authors (topic gd : JVal) (today now : String)
    (r : AnalysisResult) (h : format_response topic gd today now = .ok r) :
    (∀ i (hi : i < r.positive_perspective.examples.length),
      (r.positive_perspective.examples.get ⟨i, hi⟩).score = 100 - 15 * (i : Int) ∧
      (r.positive_perspective.examples.get ⟨i, hi⟩).author =
        "user_" ++ toString (i + 1)) ∧
    (∀ i (hi : i < r.negative_perspective.examples.length),
      (r.negative_perspective.examples.get ⟨i, hi⟩).score = 95 - 15 * (i : Int) ∧
      (r.negative_perspective.examples.get ⟨i, hi⟩).author =
        "user_" ++ toString (i + 6)) ∧
    (∀ pv pexs, pyGetItem gd "positive_examples" = .ok pv →
      pyIter pv = .ok pexs → pexs.length = 5 →
      r.positive_perspective.examples.map ExampleOut.score =
        [100, 85, 70, 55, 40]) ∧
    (∀ nv nexs, pyGetItem gd "negative_examples" = .ok nv →
      pyIter nv = .ok nexs → nexs.length = 5 →
      r.negative_perspective.examples.map ExampleOut.score =
        [95, 80, 65, 50, 35]) := by
  rcases format_response_ok_inv h with
    ⟨pv, pexs, nv, nexs, sd, pval, nval, uval, summ, hpv, hpexs, hpos, hnv,
     hnexs, hneg, hsd, hpval, hnval, huval, hsumm, hr⟩
  refine ⟨?_, ?_, ?_, ?_⟩
  · intro i hi
    have hg := buildExamples_ok_get hpos i hi
    refine ⟨?_, ?_⟩
    · rw [hg.1]
      push_cast
      ring
    · rw [hg.2.1]
      rw [Nat.zero_add]
  · intro i hi
    have hg := buildExamples_ok_get hneg i hi
    refine ⟨?_, ?_⟩
    · rw [hg.1]
      push_cast
      ring
    · rw [hg.2.1]
      rw [Nat.zero_add]
  · intro pv0 pexs0 hpv0 hpexs0 hlen5
    have hpveq : pv0 = pv := Except.ok.inj (hpv0.symm.trans hpv)
    subst hpveq
    have hpexseq : pexs0 = pexs := Except.ok.inj (hpexs0.symm.trans hpexs)
    subst hpexseq
    have hlen : r.positive_perspective.examples.length = 5 := by
      rw [buildExamples_ok_length hpos]
      exact hlen5
    have hmap := map_score_of_five 100 hlen (by
      intro i hi
      have hg := buildExamples_ok_get hpos i hi
      rw [hg.1]
      push_cast
      ring)
    rw [hmap]
    norm_num
  · intro nv0 nexs0 hnv0 hnexs0 hlen5
    have hnveq : nv0 = nv := Except.ok.inj (hnv0.symm.trans hnv)
    subst hnveq
    have hnexseq : nexs0 = nexs := Except.ok.inj (hnexs0.symm.trans hnexs)
    subst hnexseq
    have hlen : r.negative_perspective.examples.length = 5 := by
      rw [buildExamples_ok_length hneg]
      exact hlen5
    have hmap := map_score_of_five 95 hlen (by
      intro i hi
      have hg := buildExamples_ok_get hneg i hi
      rw [hg.1]
      push_cast
      ring)
    rw [hmap]
    norm_num

/-- C1, witness: the score and author sequences of the formatted result
at a concrete five-example payload. -/
theorem claim_C1_witness :
    (format_response (.str "ai") samplePayload5 "2026-10-12" "t0").map
        scoreColumns = .ok ([100, 85, 70, 55, 40], [95, 80, 65, 50, 35]) ∧
    (format_response (.str "ai") samplePayload5 "2026-10-12" "t0").map
        authorColumns =
      .ok (["user_1", "user_2", "user_3", "user_4", "user_5"],
           ["user_6", "user_7", "user_8", "user_9", "user_10"]) := by
  obtain ⟨r, hr⟩ : ∃ r,
      format_response (.str "ai") samplePayload5 "2026-10-12" "t0" = .ok r :=
    ⟨_, rfl⟩
  have hmain := claim_C1_scores_authors _ _ _ _ r hr
  constructor
  · rw [hr]
    simp only [Except.map]
    unfold scoreColumns
    rw [hmain.2.2.1 _ _ rfl rfl rfl, hmain.2.2.2 _ _ rfl rfl rfl]
  · rfl

/-- C4, counterexample: with a single example per upstream group the
formatter returns perspective groups of one example each, not five, so
the groups do not contain five Examples regardless of upstream length. -/
theorem claim_C4_counterexample :
    (format_response (.str "t") samplePayload1 "2026-10-12" "t0").map
        exampleCounts = .ok (1, 1) ∧ ((1, 1) : Nat × Nat) ≠ (5, 5) :=
  ⟨rfl, by decide⟩

/-- C4 (amended): each perspective group of a successfully formatted
result contains exactly one Example per entry of the corresponding
upstream example list; in particular exactly five when the upstream
lists have exactly five entries (as the prompt requests). -/
theorem claim_C4_examples_length (topic gd : JVal) (today now : String)
    (r : AnalysisResult) (pv nv : JVal) (pexs nexs : List JVal)
    (h : format_response topic gd today now = .ok r)
    (hpv : pyGetItem gd "positive_examples" = .ok pv)
    (hpi : pyIter pv = .ok pexs)
    (hnv : pyGetItem gd "negative_examples" = .ok nv)
    (hni : pyIter nv = .ok nexs) :
    r.positive_perspective.examples.length = pexs.length ∧
    r.negative_perspective.examples.length = nexs.length := by
  rcases format_response_ok_inv h with
    ⟨pv1, pexs1, nv1, nexs1, sd, pval, nval, uval, summ, hpv1, hpexs1, hpos,
     hnv1, hnexs1, hneg, _, _, _, _, _, hr⟩
  have e1 : pv1 = pv := Except.ok.inj (hpv1.symm.trans hpv)
  subst e1
  have e2 : pexs1 = pexs := Except.ok.inj (hpexs1.symm.trans hpi)
  subst e2
  have e3 : nv1 = nv := Except.ok.inj (hnv1.symm.trans hnv)
  subst e3
  have e4 : nexs1 = nexs := Except.ok.inj (hnexs1.symm.trans hni)
  subst e4
  exact ⟨buildExamples_ok_length hpos, buildExamples_ok_length hneg⟩

/-- C4, witness: the amended length property at the concrete
five-example payload. -/
theorem claim_C4_witness :
    (format_response (.str "ai") samplePayload5 "2026-10-12" "t0").map
      exampleCounts = .ok (5, 5) := by
  obtain ⟨r, hr⟩ : ∃ r,
      format_response (.str "ai") samplePayload5 "2026-10-12" "t0" = .ok r :=
    ⟨_, rfl⟩
  have h := claim_C4_examples_length _ _ _ _ r _ _ _ _ hr rfl rfl rfl rfl
  rw [hr]
  simp only [Except.map]
  unfold exampleCounts
  rw [h.1, h.2]
  rfl

/-- C8: the three sentiment_distribution numbers of the parsed payload
appear unchanged in the result's sentiment_distribution (no
renormalization or clamping — the equalities hold for arbitrary
integers, also outside 0-100 and not summing to 100); each perspective's
percentage equals the corresponding raw number and its count display
string is that number followed by a `%` (likewise `neutral_count`); and
a missing `analysis_summary` defaults to the empty string. -/
theorem claim_C8_distribution_passthrough (topic gd : JVal) (today now : String)
    (r : AnalysisResult) (sd : JVal) (p n u : Int)
    (h : format_response topic gd today now = .ok r)
    (hsd : pyGetItem gd "sentiment_distribution" = .ok sd)
    (hp : pyGetItem sd "positive" = .ok (.num p))
    (hn : pyGetItem sd "negative" = .ok (.num n))
    (hu : pyGetItem sd "neutral" = .ok (.num u)) :
    r.sentiment_distribution.positive = .num p ∧
    r.sentiment_distribution.negative = .num n ∧
    r.sentiment_distribution.neutral = .num u ∧
    r.positive_perspective.percentage = .num p ∧
    r.positive_perspective.count = toString p ++ "%" ∧
    r.negative_perspective.percentage = .num n ∧
    r.negative_perspective.count = toString n ++ "%" ∧
    r.neutral_count = toString u ++ "%" ∧
    (∀ fs, gd = .obj fs → lookupField "analysis_summary" fs = none →
      r.analysis_summary = .str "") := by
  rcases format_response_ok_inv h with
    ⟨pv1, pexs1, nv1, nexs1, sd1, pval, nval, uval, summ, _, _, _, _, _, _,
     hsd1, hpval, hnval, huval, hsumm, hr⟩
  have e1 : sd1 = sd := Except.ok.inj (hsd1.symm.trans hsd)
  subst e1
  have e2 : pval = .num p := Except.ok.inj (hpval.symm.trans hp)
  subst e2
  have e3 : nval = .num n := Except.ok.inj (hnval.symm.trans hn)
  subst e3
  have e4 : uval = .num u := Except.ok.inj (huval.symm.trans hu)
  subst e4
  refine ⟨by rw [hr], by rw [hr], by rw [hr], by rw [hr], by rw [hr]; rfl,
    by rw [hr], by rw [hr]; rfl, by rw [hr]; rfl, ?_⟩
  intro fs hgd hlk
  subst hgd
  rw [pyDictGet] at hsumm
  have hs2 : (lookupField "analysis_summary" fs).getD (.str "") = summ :=
    Except.ok.inj hsumm
  rw [hlk] at hs2
  rw [hr]
  exact hs2.symm

/-- C8, witness: the pass-through at a payload whose distribution is
`150 / -20 / 7` (outside 0-100, not summing to 100) with no
`analysis_summary` key. -/
theorem claim_C8_witness :
    (format_response (.str "x") samplePayloadWild "2026-10-12" "t0").map
        distView =
      .ok ((.num 150, .num (-20), .num 7), (.num 150, "150%"),
           (.num (-20), "-20%"), "7%", .str "") := by
  obtain ⟨r, hr⟩ : ∃ r,
      format_response (.str "x") samplePayloadWild "2026-10-12" "t0" = .ok r :=
    ⟨_, rfl⟩
  have h := claim_C8_distribution_passthrough _ _ _ _ r _ 150 (-20) 7 hr
    rfl rfl rfl rfl
  rw [hr]
  simp only [Except.map]
  unfold distView
  rw [h.1, h.2.1, h.2.2.1, h.2.2.2.1, h.2.2.2.2.1, h.2.2.2.2.2.1,
    h.2.2.2.2.2.2.1, h.2.2.2.2.2.2.2.1,
    h.2.2.2.2.2.2.2.2 _ rfl rfl]
  rfl

/-- C9: the formatter requires the keys `positive_examples`,
`negative_examples` and `sentiment_distribution` (with `positive`,
`negative`, `neutral` subkeys) and a `text` key in every example —
success implies all of them resolved; a payload missing
`positive_examples` raises exactly `KeyError` on that key; a formatter
error surfaces through the endpoint as 500 `Analysis failed: <message>`
(not the parse-failure message); and an absent per-example `reasoning`
is defaulted to the empty string (as is `analysis_summary`, see C8). -/
theorem claim_C9_required_keys (topic gd : JVal) (today now : String) :
    (∀ r, format_response topic gd today now = .ok r →
      (∃ pv, pyGetItem gd "positive_examples" = .ok pv) ∧
      (∃ nv, pyGetItem gd "negative_examples" = .ok nv) ∧
      (∃ sd, pyGetItem gd "sentiment_distribution" = .ok sd ∧
        (∃ v1, pyGetItem sd "positive" = .ok v1) ∧
        (∃ v2, pyGetItem sd "negative" = .ok v2) ∧
        (∃ v3, pyGetItem sd "neutral" = .ok v3)) ∧
      (∀ pv pexs, pyGetItem gd "positive_examples" = .ok pv →
        pyIter pv = .ok pexs → ∀ ex ∈ pexs, ∃ t, pyGetItem ex "text" = .ok t) ∧
      (∀ nv nexs, pyGetItem gd "negative_examples" = .ok nv →
        pyIter nv = .ok nexs → ∀ ex ∈ nexs, ∃ t, pyGetItem ex "text" = .ok t)) ∧
    (∀ fs, gd = .obj fs → lookupField "positive_examples" fs = none →
      format_response topic gd today now = .error (.keyError "positive_examples")) ∧
    (∀ (data : JVal) (env : Option String) (text : PyStr) (e : Exc),
      pyDictGet data "topic" (.str "") = .ok topic →
      pyTruthy topic = true → envVarTruthy env = true →
      jsonParse (extractCandidate text) = .ok gd →
      format_response topic gd today now = .error e →
      analyze_topic (.returnsJson data) env (.returns text) today now =
        (⟨500, .errorBody ("Analysis failed: " ++ excStr e)⟩, 1)) ∧
    (∀ r pv pexs j (hj : j < pexs.length) exfs,
      format_response topic gd today now = .ok r →
      pyGetItem gd "positive_examples" = .ok pv → pyIter pv = .ok pexs →
      pexs.get ⟨j, hj⟩ = .obj exfs → lookupField "reasoning" exfs = none →
      ∃ hj2 : j < r.positive_perspective.examples.length,
        (r.positive_perspective.examples.get ⟨j, hj2⟩).reasoning = .str "") := by
  refine ⟨?_, ?_, ?_, ?_⟩
  · intro r h
    rcases format_response_ok_inv h with
      ⟨pv1, pexs1, nv1, nexs1, sd1, pval, nval, uval, summ, hpv1, hpexs1, hpos,
       hnv1, hnexs1, hneg, hsd1, hpval, hnval, huval, hsumm, hr⟩
    refine ⟨⟨pv1, hpv1⟩, ⟨nv1, hnv1⟩,
      ⟨sd1, hsd1, ⟨pval, hpval⟩, ⟨nval, hnval⟩, ⟨uval, huval⟩⟩, ?_, ?_⟩
    · intro pv pexs hpv hpexs ex hmem
      have e1 : pv = pv1 := Except.ok.inj (hpv.symm.trans hpv1)
      subst e1
      have e2 : pexs = pexs1 := Except.ok.inj (hpexs.symm.trans hpexs1)
      subst e2
      rcases List.mem_iff_get.mp hmem with ⟨⟨j, hj⟩, hget⟩
      rcases buildExamples_ok_src hpos j hj with ⟨hj2, hx, _⟩
      rw [hget] at hx
      exact ⟨_, hx⟩
    · intro nv nexs hnv hnexs ex hmem
      have e1 : nv = nv1 := Except.ok.inj (hnv.symm.trans hnv1)
      subst e1
      have e2 : nexs = nexs1 := Except.ok.inj (hnexs.symm.trans hnexs1)
      subst e2
      rcases List.mem_iff_get.mp hmem with ⟨⟨j, hj⟩, hget⟩
      rcases buildExamples_ok_src hneg j hj with ⟨hj2, hx, _⟩
      rw [hget] at hx
      exact ⟨_, hx⟩
  · intro fs hgd hlk
    subst hgd
    rw [format_response]
    simp [pyGetItem, hlk]
  · intro data env text e hget htr henv hparse hformat
    rw [analyze_topic, hget]
    simp only [htr, Bool.not_true, Bool.false_eq_true, if_false]
    simp only [henv, Bool.not_true, Bool.false_eq_true, if_false]
    rw [analyze_topic_with_gemini, hparse]
    simp only [hformat]
    cases e with
    | jsonDecode m => exact absurd rfl (format_response_error_not_decode hformat m)
    | keyError k => rfl
    | typeError m => rfl
    | attributeError m => rfl
    | runtime m => rfl
  · intro r pv pexs j hj exfs h hpv hpexs hex hlk
    rcases format_response_ok_inv h with
      ⟨pv1, pexs1, nv1, nexs1, sd1, pval, nval, uval, summ, hpv1, hpexs1, hpos,
       hnv1, hnexs1, hneg, hsd1, hpval, hnval, huval, hsumm, hr⟩
    have e1 : pv = pv1 := Except.ok.inj (hpv.symm.trans hpv1)
    subst e1
    have e2 : pexs = pexs1 := Except.ok.inj (hpexs.symm.trans hpexs1)
    subst e2
    rcases buildExamples_ok_src hpos j hj with ⟨hj2, _, hreason⟩
    refine ⟨hj2, ?_⟩
    rw [hex, pyDictGet, hlk] at hreason
    exact (Except.ok.inj hreason).symm

/-- C9, witness: a payload missing `sentiment_distribution` formats to a
`KeyError`, and the endpoint maps the formatter error to a 500
Analysis-failed response carrying `str(KeyError)`. -/
theorem claim_C9_witness :
    format_response (.str "x") samplePayloadNoDist "2026-10-12" "t0" =
      .error (.keyError "sentiment_distribution") ∧
    jsonParse (extractCandidate noDistText) = .ok samplePayloadNoDist ∧
    analyze_topic (.returnsJson (.obj [("topic", .str "x")])) (some "k")
        (.returns noDistText) "2026-10-12" "t0" =
      (⟨500, .errorBody "Analysis failed: \x27sentiment_distribution\x27"⟩, 1) := by
  refine ⟨rfl, rfl, ?_⟩
  exact (claim_C9_required_keys (.str "x") samplePayloadNoDist "2026-10-12"
    "t0").2.2.1 (.obj [("topic", .str "x")]) (some "k") noDistText
    (.keyError "sentiment_distribution") rfl rfl rfl rfl rfl

theorem analysisFailed_ne_config (m : String) :
    ("Analysis failed: " ++ m) ≠ "GEMINI_API_KEY not configured" := by
  intro h
  have h2 := congrArg String.data h
  rw [String.data_append] at h2
  simp at h2

theorem parseFailed_ne_config (m : String) :
    ("Failed to parse AI response: " ++ m) ≠ "GEMINI_API_KEY not configured" := by
  intro h
  have h2 := congrArg String.data h
  rw [String.data_append] at h2
  simp at h2

theorem parseFailed_ne_analysisFailed (m1 m2 : String) :
    ("Failed to parse AI response: " ++ m1) ≠ ("Analysis failed: " ++ m2) := by
  intro h
  have h2 := congrArg String.data h
  rw [String.data_append, String.data_append] at h2
  simp at h2

/-- C7: for every process environment, GET /health responds 200 with
status string "healthy" and `gemini_configured` true exactly when the
`GEMINI_API_KEY` variable is present and non-empty; the handler performs
no call to the remote generative-text API (zero recorded invocations). -/
theorem claim_C7_health (env : Option String) :
    health_check env = (⟨200, .healthBody "healthy" (envVarTruthy env)⟩, 0) ∧
    (envVarTruthy env = true ↔ ∃ s, env = some s ∧ s ≠ "") ∧
    (health_check env).2 = 0 := by
  refine ⟨rfl, ?_, rfl⟩
  cases env with
  | none => simp [envVarTruthy]
  | some s =>
    constructor
    · intro h
      refine ⟨s, rfl, fun hcon => ?_⟩
      subst hcon
      exact absurd h (by decide)
    · rintro ⟨s1, heq, hne⟩
      cases heq
      simpa [envVarTruthy, Bool.eq_false_iff, String.isEmpty_iff] using hne

/-- C10: a request body on which `get_json` raises (no body or invalid
JSON), or whose parsed value is not a dict (JSON null, an array, a
string), makes the topic lookup raise, and the endpoint responds 500
with an "Analysis failed: ..." error — not the 400 "Topic is required"
response — regardless of environment and upstream behaviour, with no
remote call made. -/
theorem claim_C10_nonobject_body (m : String) (env : Option String)
    (up : UpstreamBehavior) (today now : String) :
    analyze_topic (.raises m) env up today now =
      (⟨500, .errorBody ("Analysis failed: " ++ m)⟩, 0) ∧
    analyze_topic (.returnsJson .null) env up today now =
      (⟨500, .errorBody
        "Analysis failed: \x27NoneType\x27 object has no attribute \x27get\x27"⟩, 0) ∧
    (∀ l, analyze_topic (.returnsJson (.arr l)) env up today now =
      (⟨500, .errorBody
        "Analysis failed: \x27list\x27 object has no attribute \x27get\x27"⟩, 0)) ∧
    (∀ s, analyze_topic (.returnsJson (.str s)) env up today now =
      (⟨500, .errorBody
        "Analysis failed: \x27str\x27 object has no attribute \x27get\x27"⟩, 0)) ∧
    (∀ m2, (⟨500, .errorBody ("Analysis failed: " ++ m2)⟩ : HttpResp) ≠
      ⟨400, .errorBody "Topic is required"⟩) := by
  refine ⟨rfl, rfl, fun l => rfl, fun s => rfl, fun m2 h => ?_⟩
  have := congrArg HttpResp.status h
  simp at this

/-- C6: with a dict body whose topic is truthy and a configured
credential, a JSON-parse failure of the extracted upstream text yields
500 `Failed to parse AI response: <parse message>` (carrying the parse
error message), while a failing remote call yields 500
`Analysis failed: <exception message>`, and the two messages are
distinct for all underlying messages. -/
theorem claim_C6_parse_vs_other (data topic : JVal) (env : Option String)
    (today now : String)
    (hget : pyDictGet data "topic" (.str "") = .ok topic)
    (htr : pyTruthy topic = true) (henv : envVarTruthy env = true) :
    (∀ (text : PyStr) (m : String),
      jsonParse (extractCandidate text) = .error m →
      analyze_topic (.returnsJson data) env (.returns text) today now =
        (⟨500, .errorBody ("Failed to parse AI response: " ++ m)⟩, 1)) ∧
    (∀ m : String,
      analyze_topic (.returnsJson data) env (.raises m) today now =
        (⟨500, .errorBody ("Analysis failed: " ++ m)⟩, 1)) ∧
    (∀ m1 m2 : String,
      ("Failed to parse AI response: " ++ m1) ≠ ("Analysis failed: " ++ m2)) := by
  refine ⟨?_, ?_, parseFailed_ne_analysisFailed⟩
  · intro text m hparse
    rw [analyze_topic, hget]
    simp only [htr, Bool.not_true, Bool.false_eq_true, if_false]
    simp only [henv, Bool.not_true, Bool.false_eq_true, if_false]
    rw [analyze_topic_with_gemini]
    simp only [hparse]
  · intro m
    rw [analyze_topic, hget]
    simp only [htr, Bool.not_true, Bool.false_eq_true, if_false]
    simp only [henv, Bool.not_true, Bool.false_eq_true, if_false]
    rfl

/-- C6, witness: a parse failure and a remote failure at concrete
inputs, distinguished by their messages. -/
theorem claim_C6_witness :
    jsonParse (extractCandidate "not json".data) = .error "Expecting value" ∧
    analyze_topic (.returnsJson (.obj [("topic", .str "x")])) (some "k")
        (.returns "not json".data) "2026-10-12" "t0" =
      (⟨500, .errorBody "Failed to parse AI response: Expecting value"⟩, 1) ∧
    analyze_topic (.returnsJson (.obj [("topic", .str "x")])) (some "k")
        (.raises "boom") "2026-10-12" "t0" =
      (⟨500, .errorBody "Analysis failed: boom"⟩, 1) ∧
    "Failed to parse AI response: Expecting value" ≠
      "Analysis failed: boom" := by
  have h := claim_C6_parse_vs_other (.obj [("topic", .str "x")]) (.str "x")
    (some "k") "2026-10-12" "t0" rfl rfl rfl
  exact ⟨rfl, h.1 "not json".data "Expecting value" rfl, h.2.1 "boom",
    h.2.2 "Expecting value" "boom"⟩

/-- C2: for every request body that is a dict with an absent or empty
topic field, the response is 400 `Topic is required` for every
environment and upstream behaviour (so the topic check precedes the
credential check); and for bodies whose topic field is a string, the
500 `GEMINI_API_KEY not configured` response occurs exactly when the
topic is non-empty and the credential is absent or empty. -/
theorem claim_C2_topic_then_credential (fs : List (String × JVal))
    (env : Option String) (up : UpstreamBehavior) (today now : String) :
    ((lookupField "topic" fs = none ∨ lookupField "topic" fs = some (.str "")) →
      analyze_topic (.returnsJson (.obj fs)) env up today now =
        (⟨400, .errorBody "Topic is required"⟩, 0)) ∧
    (∀ t : String, lookupField "topic" fs = some (.str t) →
      ((analyze_topic (.returnsJson (.obj fs)) env up today now).1 =
          ⟨500, .errorBody "GEMINI_API_KEY not configured"⟩ ↔
        (t ≠ "" ∧ envVarTruthy env = false))) := by
  have hget : ∀ v, lookupField "topic" fs = v →
      pyDictGet (.obj fs) "topic" (.str "") = .ok (v.getD (.str "")) := by
    intro v hv
    rw [pyDictGet, hv]
  constructor
  · rintro (hlk | hlk)
    · rw [analyze_topic, hget none hlk]
      rfl
    · rw [analyze_topic, hget _ hlk]
      rfl
  · intro t hlk
    rw [analyze_topic, hget _ hlk]
    by_cases ht : t = ""
    · subst ht
      constructor
      · intro hcon
        have h400 : (⟨400, .errorBody "Topic is required"⟩ : HttpResp) =
            ⟨500, .errorBody "GEMINI_API_KEY not configured"⟩ := hcon
        have := congrArg HttpResp.status h400
        simp at this
      · rintro ⟨hne, _⟩
        exact absurd rfl hne
    · have htr : pyTruthy (.str t) = true := by
        simpa [pyTruthy, Bool.eq_false_iff, String.isEmpty_iff] using ht
      simp only [Option.getD_some, htr, Bool.not_true, Bool.false_eq_true,
        if_false]
      cases henv : envVarTruthy env with
      | false =>
        exact iff_of_true rfl ⟨ht, rfl⟩
      | true =>
        simp only [Bool.not_true, Bool.false_eq_true, if_false]
        constructor
        · intro hcon
          exfalso
          cases up with
          | raises m =>
            exact analysisFailed_ne_config m
              (RespBody.errorBody.inj (congrArg HttpResp.body hcon))
          | returns text =>
            rw [analyze_topic_with_gemini] at hcon
            cases hjp : jsonParse (extractCandidate text) with
            | error m =>
              simp only [hjp] at hcon
              exact parseFailed_ne_config m
                (RespBody.errorBody.inj (congrArg HttpResp.body hcon))
            | ok gd =>
              simp only [hjp] at hcon
              cases hfr : format_response (.str t) gd today now with
              | error e =>
                cases e with
                | jsonDecode m =>
                  simp only [hfr] at hcon
                  exact parseFailed_ne_config m
                    (RespBody.errorBody.inj (congrArg HttpResp.body hcon))
                | keyError k =>
                  simp only [hfr] at hcon
                  exact analysisFailed_ne_config _
                    (RespBody.errorBody.inj (congrArg HttpResp.body hcon))
                | typeError m =>
                  simp only [hfr] at hcon
                  exact analysisFailed_ne_config _
                    (RespBody.errorBody.inj (congrArg HttpResp.body hcon))
                | attributeError m =>
                  simp only [hfr] at hcon
                  exact analysisFailed_ne_config _
                    (RespBody.errorBody.inj (congrArg HttpResp.body hcon))
                | runtime m =>
                  simp only [hfr] at hcon
                  exact analysisFailed_ne_config _
                    (RespBody.errorBody.inj (congrArg HttpResp.body hcon))
              | ok r =>
                simp only [hfr] at hcon
                have := congrArg HttpResp.status hcon
                simp at this
        · rintro ⟨_, hcon⟩
          exact Bool.noConfusion hcon

/-- C2, witness: an absent or empty topic yields 400 even with no
credential configured; a non-empty topic with no credential yields the
500 configuration error. -/
theorem claim_C2_witness :
    analyze_topic (.returnsJson (.obj [("topic", .str "")])) none
        (.raises "down") "2026-10-12" "t0" =
      (⟨400, .errorBody "Topic is required"⟩, 0) ∧
    analyze_topic (.returnsJson (.obj [])) none (.raises "down")
        "2026-10-12" "t0" = (⟨400, .errorBody "Topic is required"⟩, 0) ∧
    (analyze_topic (.returnsJson (.obj [("topic", .str "hi")])) none
        (.raises "down") "2026-10-12" "t0").1 =
      ⟨500, .errorBody "GEMINI_API_KEY not configured"⟩ := by
  have h1 := claim_C2_topic_then_credential [("topic", .str "")] none
    (.raises "down") "2026-10-12" "t0"
  have h2 := claim_C2_topic_then_credential [] none (.raises "down")
    "2026-10-12" "t0"
  have h3 := claim_C2_topic_then_credential [("topic", .str "hi")] none
    (.raises "down") "2026-10-12" "t0"
  exact ⟨h1.1 (Or.inr rfl), h2.1 (Or.inl rfl),
    (h3.2 "hi" rfl).mpr ⟨by decide, rfl⟩⟩

/-- C3, witness: the amended extraction description at a concrete
json-fenced input. -/
theorem claim_C3_witness :
    extractCandidate "```json\n[1, 2]\n```".data =
      amendedExtract "```json\n[1, 2]\n```".data ∧
    extractCandidate "```json\n[1, 2]\n```".data = "[1, 2]".data :=
  ⟨claim_C3_extraction "```json\n[1, 2]\n```".data, by decide⟩

/-- C7, witness: the health check at an absent and at a configured
credential. -/
theorem claim_C7_witness :
    health_check none = (⟨200, .healthBody "healthy" false⟩, 0) ∧
    health_check (some "k") = (⟨200, .healthBody "healthy" true⟩, 0) :=
  ⟨(claim_C7_health none).1, (claim_C7_health (some "k")).1⟩

/-- C10, witness: a raising body and a JSON-null body at concrete
inputs. -/
theorem claim_C10_witness :
    analyze_topic (.raises "400 Bad Request") none (.raises "x")
        "2026-10-12" "t0" =
      (⟨500, .errorBody "Analysis failed: 400 Bad Request"⟩, 0) ∧
    analyze_topic (.returnsJson .null) none (.raises "x") "2026-10-12" "t0" =
      (⟨500, .errorBody
        "Analysis failed: \x27NoneType\x27 object has no attribute \x27get\x27"⟩, 0) :=
  ⟨(claim_C10_nonobject_body "400 Bad Request" none (.raises "x")
      "2026-10-12" "t0").1,
   (claim_C10_nonobject_body "x" none (.raises "x") "2026-10-12" "t0").2.1⟩
